import Mathlib

/-!
# Verification of the litestar-users demo application

Shallow embedding of the application defined by `app.py`, `src/routes.py` and
`src/exception.py`: the ORM data model (User, Role, UserRole), the DTO field
policies, the page routes and their guards, the exception-handler table, the
CSRF configuration, and the startup seeding.  Framework behaviour that the
application only configures (session resolution, guard evaluation, the login
handler, role assignment) is modelled from the specification, each such
definition marked `Modelled from the spec:`.
-/

namespace LitestarUsersDemo

/-- A role row, from `class Role` in `app.py` (id, plus `name` and
`description` from `SQLAlchemyRoleMixin`).  UUIDs are modelled as `Nat`. -/
structure Role where
  id : Nat
  name : String
  description : String
deriving Repr, DecidableEq

/-- A user row, from `class User` in `app.py`: the `SQLAlchemyUserMixin`
columns (email, password_hash, is_active, is_verified) plus the app's own
`title` and `login_count` columns. -/
structure User where
  id : Nat
  email : String
  password_hash : String
  is_active : Bool
  is_verified : Bool
  title : String
  login_count : Nat
deriving Repr, DecidableEq

/-- The persistent store: `User` rows, `Role` rows and the `user_role`
association table from `class UserRole` in `app.py`, each association a
`(user_id, role_id)` pair. -/
structure Store where
  users : List User
  roles : List Role
  userRoles : List (Nat × Nat)
deriving Repr, DecidableEq

/-- The names of the roles associated to a user through the `user_role`
table (the `roles` relationship of `class User`, `secondary="user_role"`). -/
def Store.rolesOf (s : Store) (uid : Nat) : List String :=
  (s.userRoles.filter (fun p => p.1 == uid)).filterMap
    (fun p => (s.roles.find? (fun r => r.id == p.2)).map Role.name)

/-- Look a user up by id. -/
def Store.findById (s : Store) (uid : Nat) : Option User :=
  s.users.find? (fun u => u.id == uid)

/-- Modelled from the spec: `PasswordManager.hash` — a one-way digest of the
plaintext (spec §4.2); the digest function itself lives in the
`litestar_users` library, so it is modelled as an opaque-looking injective
tagging. -/
def password_manager_hash (plaintext : String) : String :=
  "argon2$" ++ plaintext

/-- Modelled from the spec: `PasswordManager.verify(plaintext, digest)`
(spec §4.2). -/
def password_manager_verify (plaintext digest : String) : Bool :=
  password_manager_hash plaintext == digest

/-- A route guard, from `litestar_users.guards`: `roles_accepted(*roles)` or
`roles_required(*roles)` as referenced in `app.py`. -/
inductive Guard where
  | rolesAccepted (roles : List String)
  | rolesRequired (roles : List String)
deriving Repr, DecidableEq

/-- Modelled from the spec: guard evaluation — `requireAnyOf` passes when the
user holds any of the listed roles, `requireAllOf` when it holds all of them
(spec §4.5). -/
def guardPasses (userRoleNames : List String) : Guard → Bool
  | .rolesAccepted rs => rs.any (fun r => userRoleNames.contains r)
  | .rolesRequired rs => rs.all (fun r => userRoleNames.contains r)

/-- Guards on the role-management handlers, from `app.py`:
`RoleManagementHandlerConfig(guards=[roles_accepted("administrator")])`. -/
def roleManagementGuards : List Guard := [.rolesAccepted ["administrator"]]

/-- Guards on the user-management handlers, from `app.py`:
`UserManagementHandlerConfig(guards=[roles_required("administrator")])`. -/
def userManagementGuards : List Guard := [.rolesRequired ["administrator"]]

/-- A server-rendered page route, from `src/routes.py`: the path, whether the
handler is decorated with `exclude_from_auth=True`, and the template it
renders, plus any guards (none of the three page routes declares guards). -/
structure PageRoute where
  path : String
  excludeFromAuth : Bool
  template : String
  guards : List Guard
deriving Repr, DecidableEq

/-- `serveHomepage` from `src/routes.py`: `@get("/", exclude_from_auth=True)`. -/
def serveHomepage : PageRoute := ⟨"/", true, "index.html.j2", []⟩

/-- `serveLogin` from `src/routes.py`: `@get("/login", exclude_from_auth=True)`. -/
def serveLogin : PageRoute := ⟨"/login", true, "login.html.j2", []⟩

/-- `serveSecretShit` from `src/routes.py`: `@get("/top-secret")` — not
excluded from auth, and carrying no guards. -/
def serveSecretShit : PageRoute := ⟨"/top-secret", false, "protected.html.j2", []⟩

/-- A client-visible response: a rendered template page (status 200), a
redirect, or a plain status response (framework default / API body). -/
inductive Response where
  | page (template : String)
  | redirect (path : String) (code : Nat)
  | status (code : Nat)
deriving Repr, DecidableEq

/-- The HTTP status of a response (a rendered template is served with 200). -/
def Response.statusCode : Response → Nat
  | .page _ => 200
  | .redirect _ c => c
  | .status c => c

/-- Severity of a log record, matching the `logger.warning` /
`logger.exception` calls of `src/exception.py`. -/
inductive LogLevel where
  | warning
  | exception
deriving Repr, DecidableEq

/-- A server-side log record. -/
structure LogEntry where
  level : LogLevel
  msg : String
deriving Repr, DecidableEq

/-- `http_401` from `src/exception.py`: log a warning and redirect to the
login page with status 302. -/
def http_401 : LogEntry × Response :=
  (⟨.warning, "🚨 401 Unauthorized Request: Redirecting user to login"⟩,
   .redirect "/login" 302)

/-- `http_500` from `src/exception.py`: log the failure (with the request url
and the exception text) at exception level and return the generic
`500.html.j2` template, with no context passed to the template. -/
def http_500 (url excMsg : String) : LogEntry × Response :=
  (⟨.exception, "🚨 500 ERROR: something broke on " ++ url ++ ": " ++ excMsg⟩,
   .page "500.html.j2")

/-- The two handlers registered in `exception_config` in `src/exception.py`. -/
inductive ExcHandler where
  | h401
  | h500
deriving Repr, DecidableEq

/-- `exception_config` from `src/exception.py`: `HTTP_401_UNAUTHORIZED ↦
http_401`, `HTTP_500_INTERNAL_SERVER_ERROR ↦ http_500`, nothing else. -/
def exception_config (statusCode : Nat) : Option ExcHandler :=
  if statusCode == 401 then some .h401
  else if statusCode == 500 then some .h500
  else none

/-- The outcome of handling a request: the response sent to the client and
the log records written server-side. -/
structure DispatchResult where
  response : Response
  logs : List LogEntry
deriving Repr, DecidableEq

/-- Modelled from the spec: central error interception (spec §4.6, §7) — an
exception with the given status is looked up in `exception_config`; a
registered handler produces the response, otherwise the framework's default
response for that status is returned. -/
def applyExceptionConfig (statusCode : Nat) (url excMsg : String) : DispatchResult :=
  match exception_config statusCode with
  | some .h401 => ⟨http_401.2, [http_401.1]⟩
  | some .h500 => ⟨(http_500 url excMsg).2, [(http_500 url excMsg).1]⟩
  | none => ⟨.status statusCode, []⟩

/-- Modelled from the spec: the request pipeline for a route (spec §2, §4.5,
§6, §7) — session resolution yields a current user or none; a request with no
session to a route not excluded from auth raises Unauthorized (401), an
authenticated request failing a guard raises Forbidden (403); either
exception is routed through `applyExceptionConfig`; otherwise the handler
runs and returns its success response. -/
def dispatchRoute (s : Store) (session : Option Nat) (excludeFromAuth : Bool)
    (guards : List Guard) (success : Response) (url : String) : DispatchResult :=
  match session with
  | none =>
    if excludeFromAuth then ⟨success, []⟩
    else applyExceptionConfig 401 url "NotAuthorizedException"
  | some uid =>
    if guards.all (guardPasses (s.rolesOf uid)) then ⟨success, []⟩
    else applyExceptionConfig 403 url "PermissionDeniedException"

/-- Dispatch of a GET request to one of the page routes of `src/routes.py`:
the handler's success response renders the route's template. -/
def dispatchPage (s : Store) (session : Option Nat) (route : PageRoute) : DispatchResult :=
  dispatchRoute s session route.excludeFromAuth route.guards
    (.page route.template) route.path

/-- `UserService.post_login_hook` from `app.py`: increments the logged-in
user's `login_count` by one. -/
def post_login_hook (u : User) : User :=
  { u with login_count := u.login_count + 1 }

/-- The observable steps of a login attempt, used to state the ordering of
credential verification, the post-login hook, and the response. -/
inductive LoginEvent where
  | credentialCheckFailed
  | credentialCheckOk
  | incrementLoginCount
  | respond (r : Response)
deriving Repr, DecidableEq

/-- Modelled from the spec: the `POST /api/login` handler of the
`litestar_users` plugin (spec §4.4) — look the user up by email and verify
the password digest; on failure return the enumeration-safe 401 with the
store unchanged; on success run the configured `post_login_hook` (from
`app.py`) on the user, persist it, and only then respond 200. -/
def login (s : Store) (email password : String) : Store × List LoginEvent × Response :=
  match s.users.find? (fun u => u.email == email) with
  | none => (s, [.credentialCheckFailed, .respond (.status 401)], .status 401)
  | some u =>
    if password_manager_verify password u.password_hash then
      let u' := post_login_hook u
      ({ s with users := s.users.map (fun v => if v.id == u.id then u' else v) },
       [.credentialCheckOk, .incrementLoginCount, .respond (.status 200)],
       .status 200)
    else
      (s, [.credentialCheckFailed, .respond (.status 401)], .status 401)

/-- The column names of the `User` model (mixin columns, audit timestamps of
`UUIDAuditBase`, and the app's `title` and `login_count`). -/
def userColumns : List String :=
  ["id", "email", "password_hash", "is_active", "is_verified",
   "title", "login_count", "created_at", "updated_at"]

/-- `UserReadDTO` from `app.py`: `DTOConfig(exclude={"password_hash"})`. -/
def UserReadDTO_exclude : List String := ["password_hash"]

/-- `UserUpdateDTO` from `app.py`:
`DTOConfig(exclude={"id", "login_count"}, partial=True)`. -/
def UserUpdateDTO_exclude : List String := ["id", "login_count"]

/-- The field/value pairs of a user row, before any DTO shaping. -/
def userFieldValues (u : User) : List (String × String) :=
  [("id", toString u.id), ("email", u.email), ("password_hash", u.password_hash),
   ("is_active", toString u.is_active), ("is_verified", toString u.is_verified),
   ("title", u.title), ("login_count", toString u.login_count)]

/-- The wire representation of a user produced through `UserReadDTO`: every
column value except the excluded ones. -/
def serializeUser (u : User) : List (String × String) :=
  (userFieldValues u).filter (fun p => !(UserReadDTO_exclude.contains p.1))

/-- Set a single named column of a user row to a given (string-encoded)
value; unknown names leave the row unchanged. -/
def setUserField (u : User) (fv : String × String) : User :=
  if fv.1 == "id" then { u with id := fv.2.toNat?.getD u.id }
  else if fv.1 == "email" then { u with email := fv.2 }
  else if fv.1 == "password_hash" then { u with password_hash := fv.2 }
  else if fv.1 == "is_active" then { u with is_active := fv.2 == "true" }
  else if fv.1 == "is_verified" then { u with is_verified := fv.2 == "true" }
  else if fv.1 == "title" then { u with title := fv.2 }
  else if fv.1 == "login_count" then { u with login_count := fv.2.toNat?.getD u.login_count }
  else u

/-- Modelled from the spec: the `PUT /api/users/*` update handler (spec §3,
§6) — the submitted partial data is shaped through `UserUpdateDTO` (from
`app.py`), so fields in its exclude set are dropped before the remaining
assignments are applied to the stored row. -/
def applyUserUpdate (u : User) (data : List (String × String)) : User :=
  (data.filter (fun p => !(UserUpdateDTO_exclude.contains p.1))).foldl setUserField u

/-- `csrf_config` exclusions from `app.py`:
`CSRFConfig(secret="IAMTOPSECRET", exclude=["/api/login", "/api/logout"])`. -/
def csrf_exclude : List String := ["/api/login", "/api/logout"]

/-- Modelled from the spec: the CSRF middleware decision (spec §6) — a valid
token is demanded exactly on state-changing (non-GET) requests whose path is
not in the configured exclude list. -/
def csrfRequired (method path : String) : Bool :=
  method != "GET" && !(csrf_exclude.contains path)

/-- The administrator role created by `on_startup` in `app.py`:
`Role(name="administrator", description="Top admin")`. -/
def admin_role : Role := ⟨0, "administrator", "Top admin"⟩

/-- The admin user created by `on_startup` in `app.py`, holding the
administrator role. -/
def admin_user : User :=
  ⟨1, "admin@example.com", password_manager_hash "iamsuperadmin",
   true, true, "Exemplar", 0⟩

/-- `on_startup` from `app.py`: after creating the schema, unconditionally
seed the store with the administrator role and the admin user linked to it
through the `user_role` association. -/
def on_startup : Store :=
  ⟨[admin_user], [admin_role], [(admin_user.id, admin_role.id)]⟩

/-- Modelled from the spec: `assignRole(user, role)` (spec §4.1) — add the
`(user id, role id)` pair to the association unless it is already present;
assigning an already-assigned role is a no-op. -/
def assignRole (s : Store) (uid rid : Nat) : Store :=
  if (uid, rid) ∈ s.userRoles then s
  else { s with userRoles := (uid, rid) :: s.userRoles }

/-- Modelled from the spec: `revokeRole(user, role)` (spec §4.1) — remove the
`(user id, role id)` pair from the association; revoking a non-existent
assignment is a no-op. -/
def revokeRole (s : Store) (uid rid : Nat) : Store :=
  { s with userRoles := s.userRoles.filter (fun p => p != (uid, rid)) }

/-- The store states reachable from the seeded startup store by the
operations of the application that touch it. -/
inductive Reachable : Store → Prop where
  | startup : Reachable on_startup
  | assign (uid rid : Nat) {s : Store} : Reachable s → Reachable (assignRole s uid rid)
  | revoke (uid rid : Nat) {s : Store} : Reachable s → Reachable (revokeRole s uid rid)
  | doLogin (email password : String) {s : Store} :
      Reachable s → Reachable (login s email password).1

/-! ## Helper lemmas -/

theorem login_userRoles (s : Store) (email password : String) :
    (login s email password).1.userRoles = s.userRoles := by
  unfold login
  cases hf : s.users.find? (fun u => u.email == email) with
  | none => rfl
  | some u => by_cases hv : password_manager_verify password u.password_hash <;> simp [hv]

theorem login_failure_store (s : Store) (email password : String)
    (h : (login s email password).2.2 ≠ .status 200) : (login s email password).1 = s := by
  unfold login at h ⊢
  cases hf : s.users.find? (fun u => u.email == email) with
  | none => rfl
  | some u =>
    by_cases hv : password_manager_verify password u.password_hash
    · simp [hf, hv] at h
    · simp [hv]

theorem find?_map_update (l : List User) (tid : Nat) (u' : User) (hid : u'.id = tid)
    (hex : ∃ v ∈ l, v.id = tid) :
    (l.map (fun v => if v.id == tid then u' else v)).find? (fun v => v.id == tid) = some u' := by
  induction l with
  | nil => simp at hex
  | cons h t ih =>
    by_cases hh : h.id = tid
    · simp [List.map_cons, hh, List.find?_cons, hid]
    · have hbeq : (h.id == tid) = false := by simp [hh]
      obtain ⟨v, hv, hvid⟩ := hex
      rcases List.mem_cons.mp hv with rfl | hvt
      · exact absurd hvid hh
      · simp only [List.map_cons, hbeq, Bool.false_eq_true, if_false, List.find?_cons, hbeq]
        exact ih ⟨v, hvt, hvid⟩

theorem setUserField_login_count (u : User) (fv : String × String)
    (h : fv.1 ≠ "login_count") : (setUserField u fv).login_count = u.login_count := by
  unfold setUserField
  repeat' split
  all_goals simp_all

theorem foldl_setUserField_login_count (l : List (String × String)) (u : User)
    (h : ∀ p ∈ l, p.1 ≠ "login_count") :
    (l.foldl setUserField u).login_count = u.login_count := by
  induction l generalizing u with
  | nil => rfl
  | cons p t ih =>
    rw [List.foldl_cons, ih _ (fun q hq => h q (List.mem_cons_of_mem p hq))]
    exact setUserField_login_count u p (h p (List.mem_cons_self p t))

theorem applyUserUpdate_login_count (u : User) (data : List (String × String)) :
    (applyUserUpdate u data).login_count = u.login_count := by
  apply foldl_setUserField_login_count
  intro p hp
  have := (List.mem_filter.mp hp).2
  simp [UserUpdateDTO_exclude] at this
  exact fun hc => this.2 (by rw [hc])

theorem revokeRole_not_mem (t : Store) (u r : Nat) (h : (u, r) ∉ t.userRoles) :
    revokeRole t u r = t := by
  unfold revokeRole
  have : t.userRoles.filter (fun p => p != (u, r)) = t.userRoles := by
    apply List.filter_eq_self.mpr
    intro p hp
    simp only [bne_iff_ne, ne_eq]
    exact fun hc => h (hc ▸ hp)
  rw [this]

theorem reachable_nodup (s : Store) (h : Reachable s) : s.userRoles.Nodup := by
  induction h with
  | startup => simp [on_startup]
  | assign uid rid _ ih =>
    unfold assignRole
    split
    · exact ih
    · exact List.Nodup.cons (by assumption) ih
  | revoke uid rid _ ih => exact List.Nodup.filter _ ih
  | doLogin email password _ ih => rw [login_userRoles]; exact ih

/-! ## Claims -/

/-- Claim C10: `on_startup` unconditionally seeds the store with a Role named
`administrator` and a User `admin@example.com` whose password hash is the
hash of the hardcoded `iamsuperadmin` (not the plaintext itself), active,
verified, titled `Exemplar`, and holding the administrator role. -/
theorem startup_seeds_fixed_admin :
    admin_role ∈ on_startup.roles ∧ admin_role.name = "administrator" ∧
    admin_user ∈ on_startup.users ∧ admin_user.email = "admin@example.com" ∧
    admin_user.password_hash = password_manager_hash "iamsuperadmin" ∧
    admin_user.password_hash ≠ "iamsuperadmin" ∧
    admin_user.is_active = true ∧ admin_user.is_verified = true ∧
    admin_user.title = "Exemplar" ∧
    on_startup.rolesOf admin_user.id = ["administrator"] ∧
    password_manager_verify "iamsuperadmin" admin_user.password_hash = true := by
  decide

/-- Claim C1 as stated is false: `serveSecretShit` declares no role guard, so
a logged-in user with no roles at all receives the 200 protected page on
`GET /top-secret`, not a redirect to `/login`. -/
theorem top_secret_no_role_guard_counterexample :
    (dispatchPage ⟨[⟨2, "alice@example.com", password_manager_hash "pw123456",
        true, true, "Engineer", 1⟩], [], []⟩ (some 2) serveSecretShit).response
      = .page "protected.html.j2" ∧
    (dispatchPage ⟨[⟨2, "alice@example.com", password_manager_hash "pw123456",
        true, true, "Engineer", 1⟩], [], []⟩ (some 2) serveSecretShit).response
      ≠ .redirect "/login" 302 ∧
    (dispatchPage ⟨[⟨2, "alice@example.com", password_manager_hash "pw123456",
        true, true, "Engineer", 1⟩], [], []⟩ (some 2)
        serveSecretShit).response.statusCode = 200 := by
  decide

/-- Claim C1 amended: `GET /top-secret` returns the 200 protected page for
every logged-in user regardless of roles — both before and after the
administrator role is assigned — while a request with no session is
redirected to `/login`. -/
theorem top_secret_requires_only_authentication (s : Store) (uid rid : Nat) :
    (dispatchPage s (some uid) serveSecretShit).response = .page "protected.html.j2" ∧
    (dispatchPage (assignRole s uid rid) (some uid) serveSecretShit).response
      = .page "protected.html.j2" ∧
    (dispatchPage s none serveSecretShit).response = .redirect "/login" 302 := by
  refine ⟨rfl, rfl, rfl⟩

/-- Claim C3: a request with no valid session to a protected (not
excluded-from-auth) page route is answered with a 302 redirect to `/login`,
and a warning is logged. -/
theorem no_session_redirects_to_login (s : Store) (route : PageRoute)
    (h : route.excludeFromAuth = false) :
    (dispatchPage s none route).response = .redirect "/login" 302 ∧
    (dispatchPage s none route).response.statusCode = 302 ∧
    ∃ e ∈ (dispatchPage s none route).logs, e.level = .warning := by
  unfold dispatchPage dispatchRoute
  rw [h]
  refine ⟨rfl, rfl, ⟨http_401.1, by simp [applyExceptionConfig, exception_config], rfl⟩⟩

/-- Claim C3 witness: the theorem instantiated at the `/top-secret` route. -/
theorem no_session_redirects_to_login_witness :
    (dispatchPage on_startup none serveSecretShit).response = .redirect "/login" 302 :=
  (no_session_redirects_to_login on_startup serveSecretShit rfl).1

/-- Claim C2 as stated is false: the two authorization-failure cases are
distinguishable.  A no-session request to a guarded route is turned into the
302 redirect by the registered 401 handler, but an authenticated user lacking
the required role gets the framework's default 403 response, since
`exception_config` registers no handler for 403. -/
theorem auth_failures_distinguishable_counterexample :
    (dispatchRoute ⟨[⟨3, "bob@example.com", password_manager_hash "pw123456",
        true, true, "Bob", 0⟩], [], []⟩ none false roleManagementGuards
        (.status 200) "/api/roles").response = .redirect "/login" 302 ∧
    (dispatchRoute ⟨[⟨3, "bob@example.com", password_manager_hash "pw123456",
        true, true, "Bob", 0⟩], [], []⟩ (some 3) false roleManagementGuards
        (.status 200) "/api/roles").response = .status 403 ∧
    (dispatchRoute ⟨[⟨3, "bob@example.com", password_manager_hash "pw123456",
        true, true, "Bob", 0⟩], [], []⟩ none false roleManagementGuards
        (.status 200) "/api/roles").response
      ≠ (dispatchRoute ⟨[⟨3, "bob@example.com", password_manager_hash "pw123456",
        true, true, "Bob", 0⟩], [], []⟩ (some 3) false roleManagementGuards
        (.status 200) "/api/roles").response := by
  decide

/-- Claim C2 amended: only the no-session case is intercepted centrally — by
the 401 entry of `exception_config` — and mapped to the uniform 302 redirect
to `/login`; an insufficient-role guard failure yields the default 403
response (no 403 handler is registered), so the two failure cases are
distinguishable. -/
theorem auth_failure_responses (s : Store) (gs : List Guard) (succ : Response)
    (url : String) (uid : Nat) (h : gs.all (guardPasses (s.rolesOf uid)) = false) :
    (dispatchRoute s none false gs succ url).response = .redirect "/login" 302 ∧
    (dispatchRoute s (some uid) false gs succ url).response = .status 403 ∧
    (dispatchRoute s none false gs succ url).response
      ≠ (dispatchRoute s (some uid) false gs succ url).response ∧
    exception_config 403 = none := by
  refine ⟨rfl, ?_, ?_, rfl⟩
  · simp [dispatchRoute, h, applyExceptionConfig, exception_config]
  · simp [dispatchRoute, h, applyExceptionConfig, exception_config, http_401]

/-- Claim C2 witness: the amended theorem at a concrete non-admin user. -/
theorem auth_failure_responses_witness :
    (dispatchRoute ⟨[], [], []⟩ (some 3) false roleManagementGuards
      (.status 200) "/api/roles").response = .status 403 :=
  (auth_failure_responses ⟨[], [], []⟩ roleManagementGuards
    (.status 200) "/api/roles" 3 (by decide)).2.1

/-- Claim C4: a successful login persists exactly `login_count + 1` for the
logged-in user; in the event trace the increment happens strictly after the
credential check succeeds and strictly before the response; any login that
does not answer 200 leaves the store untouched; and the update endpoint
(through `UserUpdateDTO`, which excludes `login_count`) never changes
`login_count`. -/
theorem login_count_increments_once (s : Store) (email pw : String) (u : User)
    (hfind : s.users.find? (fun v => v.email == email) = some u)
    (hverify : password_manager_verify pw u.password_hash = true) :
    ((login s email pw).1.findById u.id).map User.login_count
      = some (u.login_count + 1) ∧
    (login s email pw).2.1
      = [.credentialCheckOk, .incrementLoginCount, .respond (.status 200)] ∧
    (∀ t e p, (login t e p).2.2 ≠ .status 200 → (login t e p).1 = t) ∧
    (∀ v data, (applyUserUpdate v data).login_count = v.login_count) := by
  have hmem : u ∈ s.users := List.mem_of_find?_eq_some hfind
  refine ⟨?_, ?_, login_failure_store, applyUserUpdate_login_count⟩
  · unfold login
    rw [hfind]
    simp only [hverify, if_true, Store.findById]
    rw [find?_map_update s.users u.id (post_login_hook u) rfl ⟨u, hmem, rfl⟩]
    rfl
  · unfold login
    rw [hfind]
    simp [hverify]

/-- Claim C4 witness: logging the seeded admin in with the hardcoded
password increments its `login_count` from 0 to 1. -/
theorem login_count_increments_once_witness :
    ((login on_startup "admin@example.com" "iamsuperadmin").1.findById
      admin_user.id).map User.login_count = some (admin_user.login_count + 1) :=
  (login_count_increments_once on_startup "admin@example.com" "iamsuperadmin"
    admin_user (by decide) (by decide)).1

/-- Claim C5: the wire representation produced through `UserReadDTO` never
carries the `password_hash` field, and the client-visible 500 response is
the generic template page, identical whatever the exception text was. -/
theorem responses_redact_password_hash :
    (∀ u : User, ∀ p ∈ serializeUser u, p.1 ≠ "password_hash") ∧
    (∀ u : User, ("password_hash", u.password_hash) ∉ serializeUser u) ∧
    (∀ url e1 e2 : String, (http_500 url e1).2 = (http_500 url e2).2) ∧
    (∀ url e : String, (http_500 url e).2 = .page "500.html.j2") := by
  have h1 : ∀ u : User, ∀ p ∈ serializeUser u, p.1 ≠ "password_hash" := by
    intro u p hp
    have := (List.mem_filter.mp hp).2
    simp [UserReadDTO_exclude] at this
    exact fun hc => this (by rw [hc])
  refine ⟨h1, ?_, fun _ _ _ => rfl, fun _ _ => rfl⟩
  intro u hmem
  exact h1 u _ hmem rfl

/-- Claim C5 witness: a concrete serialized field of the seeded admin user,
shown not to be the password hash field. -/
theorem responses_redact_password_hash_witness : "email" ≠ "password_hash" :=
  responses_redact_password_hash.1 admin_user
    ("email", "admin@example.com") (by decide)

/-- Claim C6 as stated is false: the user-management routes are guarded by
`roles_required("administrator")`, so an authenticated non-admin user is
denied (403) even when acting on their own record. -/
theorem user_management_self_access_counterexample :
    (dispatchRoute ⟨[⟨4, "carol@example.com", password_manager_hash "pw123456",
        true, true, "Carol", 0⟩], [], []⟩ (some 4) false userManagementGuards
        (.status 200) "/api/users/4").response = .status 403 ∧
    (dispatchRoute ⟨[⟨4, "carol@example.com", password_manager_hash "pw123456",
        true, true, "Carol", 0⟩], [], []⟩ (some 4) false userManagementGuards
        (.status 200) "/api/users/4").response.statusCode ≠ 200 := by
  decide

/-- Claim C6 amended: both the user-management and the role-management routes
are admin-only — an authenticated user without the `administrator` role is
denied with 403 even on their own record, and a user holding it is let
through on both route families. -/
theorem management_routes_admin_only (s : Store) (uid : Nat) (succ : Response)
    (url : String) :
    ((s.rolesOf uid).contains "administrator" = false →
      (dispatchRoute s (some uid) false userManagementGuards succ url).response
        = .status 403 ∧
      (dispatchRoute s (some uid) false roleManagementGuards succ url).response
        = .status 403) ∧
    ((s.rolesOf uid).contains "administrator" = true →
      (dispatchRoute s (some uid) false userManagementGuards succ url).response = succ ∧
      (dispatchRoute s (some uid) false roleManagementGuards succ url).response = succ) := by
  constructor
  · intro h
    have h2 : "administrator" ∉ s.rolesOf uid := by simp_all
    constructor <;>
      simp [dispatchRoute, userManagementGuards, roleManagementGuards, guardPasses, h2,
        applyExceptionConfig, exception_config]
  · intro h
    have h2 : "administrator" ∈ s.rolesOf uid := by simp_all
    constructor <;>
      simp [dispatchRoute, userManagementGuards, roleManagementGuards, guardPasses, h2]

/-- Claim C6 witness: the amended theorem at the seeded store — the admin
user passes the user-management guard, a fresh non-admin id does not. -/
theorem management_routes_admin_only_witness :
    (dispatchRoute on_startup (some admin_user.id) false userManagementGuards
      (.status 200) "/api/users/1").response = .status 200 ∧
    (dispatchRoute on_startup (some 9) false userManagementGuards
      (.status 200) "/api/users/9").response = .status 403 :=
  ⟨((management_routes_admin_only on_startup admin_user.id
      (.status 200) "/api/users/1").2 (by decide)).1,
   ((management_routes_admin_only on_startup 9
      (.status 200) "/api/users/9").1 (by decide)).1⟩

/-- Claim C7: GET requests never need a CSRF token, `/api/login` and
`/api/logout` are exempt even for state-changing methods, and every other
state-changing (non-GET) request requires a valid CSRF token. -/
theorem csrf_required_except_login_logout :
    (∀ path, csrfRequired "GET" path = false) ∧
    csrfRequired "POST" "/api/login" = false ∧
    csrfRequired "POST" "/api/logout" = false ∧
    (∀ method path : String, method ≠ "GET" → path ∉ csrf_exclude →
      csrfRequired method path = true) := by
  refine ⟨fun _ => rfl, rfl, rfl, ?_⟩
  intro m p hm hp
  have h1 : (m != "GET") = true := by simp [hm]
  have h2 : (csrf_exclude.contains p) = false := by
    cases hc : csrf_exclude.contains p with
    | false => rfl
    | true => exfalso; simp_all
  simp only [csrfRequired, h1, h2, Bool.not_false, Bool.and_self]

/-- Claim C7 witness: a POST to the registration endpoint requires a CSRF
token. -/
theorem csrf_required_except_login_logout_witness :
    csrfRequired "POST" "/api/register" = true :=
  csrf_required_except_login_logout.2.2.2 "POST" "/api/register"
    (by decide) (by decide)

/-- Claim C8: an unhandled 500 fault is routed to the registered `http_500`
handler, which logs the full detail (request url and exception text, at
exception level) server-side while the client receives only the generic
`500.html.j2` page, identical whatever the internal error text was. -/
theorem internal_fault_logs_detail_serves_generic_page (url exc : String) :
    (applyExceptionConfig 500 url exc).logs =
      [⟨.exception, "🚨 500 ERROR: something broke on " ++ url ++ ": " ++ exc⟩] ∧
    (applyExceptionConfig 500 url exc).response = .page "500.html.j2" ∧
    (∀ exc2, (applyExceptionConfig 500 url exc2).response
      = (applyExceptionConfig 500 url exc).response) :=
  ⟨rfl, rfl, fun _ => rfl⟩

/-- Claim C9: in every reachable store state each `(user id, role id)` pair
appears at most once in the `user_role` association, and role assignment and
revocation are idempotent: assigning an already-assigned role and revoking a
non-existent assignment are both no-ops. -/
theorem user_role_pairs_unique_and_idempotent (s : Store) (h : Reachable s) :
    s.userRoles.Nodup ∧
    (∀ t : Store, ∀ u r : Nat, assignRole (assignRole t u r) u r = assignRole t u r) ∧
    (∀ t : Store, ∀ u r : Nat, (u, r) ∉ t.userRoles → revokeRole t u r = t) ∧
    (∀ t : Store, ∀ u r : Nat, revokeRole (revokeRole t u r) u r = revokeRole t u r) := by
  refine ⟨?_, ?_, revokeRole_not_mem, ?_⟩
  · exact reachable_nodup s h
  · intro t u r
    by_cases hm : (u, r) ∈ t.userRoles
    · simp [assignRole, hm]
    · simp [assignRole, hm]
  · intro t u r
    apply revokeRole_not_mem
    intro hmem
    have := (List.mem_filter.mp hmem).2
    simp at this

/-- Claim C9 witness: the theorem at the seeded startup store — its
association list holds no duplicate pair. -/
theorem user_role_pairs_unique_and_idempotent_witness :
    on_startup.userRoles.Nodup :=
  (user_role_pairs_unique_and_idempotent on_startup Reachable.startup).1

end LitestarUsersDemo
